import Mathlib

/-!
Shallow embedding of the Triage Decision Engine of the AI-Driven-HMS
repository (the symptom-check POST route, `src/lib/ai.ts` and
`src/utils/helpers.ts`), together with theorems settling the frozen claims
about it.

Modelling conventions:
* TypeScript strings are Lean `String`s; the ASCII-only parts of JavaScript
  `toLowerCase`/`toUpperCase` coincide with `Char.toLower`/`Char.toUpper`
  for every character appearing in the keyword tables and test inputs.
* JavaScript numbers that flow into `riskScore` are modelled as `Rat`
  (JSON numbers; `NaN`/`Infinity` cannot result from `JSON.parse`).
* A successful `JSON.parse` of a Gemini reply is modelled by the record
  `GeminiParsed`, which captures exactly the distinctions the source reads
  off the parsed value (field presence, JS truthiness, `Array.isArray`,
  `typeof x === "number"` / `"boolean"`).
* JavaScript regular-expression *capture* for the labelled-section
  patterns of `extractPossibleConditions` / `extractRecommendations` is
  passed in as an explicit `Option String` argument (the capture group the
  first matching pattern produced, `none` when no pattern matched); every
  claim under verification is insensitive to which fragment the regex
  engine captures, while all processing after the capture (split, trim,
  filter, slice) is embedded faithfully.  The word-boundary keyword
  regexes (`\b(severe|...)\b` etc.) are embedded directly.
* The two external collaborators are modelled by explicit behaviour data:
  `GenBehavior` for the Gemini generation service and `ClassState` for the
  lazily-loaded zero-shot classifier (unavailable, or available and
  returning given votes).
-/

/-! ## Character and string utilities (ASCII semantics of the JS operations) -/

/-- ASCII lower-casing of one character, as `String.prototype.toLowerCase`
acts on ASCII (non-ASCII characters in the Bengali keyword lists are fixed
points of both). -/
def lowerChar (c : Char) : Char :=
  if 'A' ≤ c && c ≤ 'Z' then Char.ofNat (c.toNat + 32) else c

/-- ASCII upper-casing of one character (`String.prototype.toUpperCase`). -/
def upperChar (c : Char) : Char :=
  if 'a' ≤ c && c ≤ 'z' then Char.ofNat (c.toNat - 32) else c

/-- `toLowerCase` on a whole string. -/
def lowerStr (s : String) : String :=
  String.mk (s.data.map lowerChar)

/-- `toUpperCase` on a whole string. -/
def upperStr (s : String) : String :=
  String.mk (s.data.map upperChar)

/-- Does `needle` occur at the head of `hay`? -/
def headMatches : List Char → List Char → Bool
  | [], _ => true
  | _ :: _, [] => false
  | a :: as, b :: bs => a == b && headMatches as bs

/-- JavaScript `String.prototype.includes`: contiguous-substring test. -/
def containsSub (needle : List Char) : List Char → Bool
  | [] => needle.isEmpty
  | c :: rest => headMatches needle (c :: rest) || containsSub needle rest

/-- JS `\s` whitespace class, restricted to the ASCII members (the only
ones the embedded texts use). -/
def isWS (c : Char) : Bool :=
  c == ' ' || c == '\t' || c == '\n' || c == '\r' || c == '\x0b' || c == '\x0c'

/-- JS `\w` word-character class `[A-Za-z0-9_]` (used by `\b`). -/
def isWordChar (c : Char) : Bool :=
  ('a' ≤ c && c ≤ 'z') || ('A' ≤ c && c ≤ 'Z') || ('0' ≤ c && c ≤ '9') || c == '_'

/-- JavaScript `String.prototype.trim` (ASCII whitespace). -/
def trimStr (s : String) : String :=
  String.mk (((s.data.dropWhile isWS).reverse.dropWhile isWS).reverse)

/-! ## Word-boundary regex patterns

One alternative of a pattern such as `/\b(severe|life.threatening|...)\b/i`
is a sequence of atoms: a literal character (compared case-insensitively)
or the `.` wildcard (any character except a line terminator). -/

/-- One regex atom. -/
inductive CPat where
  | lit (c : Char)
  | dot
deriving DecidableEq

/-- Turn a lower-case literal word into a pattern; `'.'` becomes the
wildcard (as in the source words `life.threatening`, `heart.attack`). -/
def wordPat (s : String) : List CPat :=
  s.data.map fun c => if c == '.' then CPat.dot else CPat.lit c

/-- Try to match a pattern at the head of the text (case-insensitive, `.`
matches anything but a line terminator); returns the consumed original
characters and the remainder. -/
def matchPat : List CPat → List Char → Option (List Char × List Char)
  | [], rest => some ([], rest)
  | _ :: _, [] => none
  | CPat.lit c :: ps, x :: xs =>
      if lowerChar x == c then
        (matchPat ps xs).map fun pr => (x :: pr.1, pr.2)
      else none
  | CPat.dot :: ps, x :: xs =>
      if x == '\n' || x == '\r' then none
      else (matchPat ps xs).map fun pr => (x :: pr.1, pr.2)

/-- The trailing `\b` of the keyword patterns: end of input or a non-word
character (every pattern ends with a word character). -/
def boundaryAfter : List Char → Bool
  | [] => true
  | c :: _ => !isWordChar c

/-- Try the alternatives in source order at the head of the text; each one
must individually satisfy the trailing `\b`. -/
def firstAlt (pats : List (List CPat)) (l : List Char) : Option (List Char × List Char) :=
  match pats with
  | [] => none
  | p :: ps =>
      match matchPat p l with
      | some (consumed, rest) =>
          if boundaryAfter rest then some (consumed, rest) else firstAlt ps l
      | none => firstAlt ps l

/-- `RegExp.prototype.test` for `/\b(alt1|alt2|...)\b/i`: some position with
a word boundary before it where one alternative matches. `prev` is the
character just before the current position (`none` at the start). -/
def regexTestAux (pats : List (List CPat)) (prev : Option Char) : List Char → Bool
  | [] => false
  | x :: xs =>
      let bOK := match prev with
        | none => true
        | some p => !isWordChar p
      (bOK && (firstAlt pats (x :: xs)).isSome) || regexTestAux pats (some x) xs

/-- Boolean word-boundary regex test over a string. -/
def regexTest (pats : List (List CPat)) (s : String) : Bool :=
  regexTestAux pats none s.data

/-- `String.prototype.match` with a `/g` flag: collect every match, resuming
after each one (fuel-driven; the fuel supplied below always suffices since
every step consumes at least one character). -/
def regexAllAux (pats : List (List CPat)) :
    Nat → Option Char → List Char → List (List Char)
  | 0, _, _ => []
  | _ + 1, _, [] => []
  | fuel + 1, prev, x :: xs =>
      let bOK := match prev with
        | none => true
        | some p => !isWordChar p
      match if bOK then firstAlt pats (x :: xs) else none with
      | some (consumed, rest) =>
          consumed :: regexAllAux pats fuel (consumed.getLast? ) rest
      | none => regexAllAux pats fuel (some x) xs

/-- All matches of `/\b(...)\b/gi` in a string, as the original text slices. -/
def regexAll (pats : List (List CPat)) (s : String) : List String :=
  (regexAllAux pats (s.data.length + 1) none s.data).map String.mk

/-- `[...new Set(xs)]`: de-duplicate preserving first occurrence. -/
def dedup : List String → List String
  | [] => []
  | x :: xs => x :: (dedup xs).filter (· ≠ x)

/-! ## Enumerations of the data model -/

/-- `Language` enum of the Prisma schema (`CREATE TYPE "Language" AS ENUM
('EN', 'BN')`). -/
inductive LanguageTag where
  | EN
  | BN
deriving DecidableEq, Repr

/-- `UrgencyLevel` closed enum. -/
inductive UrgencyLevel where
  | LOW
  | MEDIUM
  | HIGH
  | EMERGENCY
deriving DecidableEq, Repr

open UrgencyLevel

/-- The ad hoc numeric lookup table `priorityOrder` of
`getHigherPriorityUrgency` (`src/lib/ai.ts` line 719). -/
def priorityOrder : UrgencyLevel → Nat
  | LOW => 1
  | MEDIUM => 2
  | HIGH => 3
  | EMERGENCY => 4

/-- `getHigherPriorityUrgency` (`src/lib/ai.ts` lines 718-721). -/
def getHigherPriorityUrgency (level1 level2 : UrgencyLevel) : UrgencyLevel :=
  if priorityOrder level1 ≥ priorityOrder level2 then level1 else level2

/-- The ordinal rank LOW < MEDIUM < HIGH < EMERGENCY exactly as the spec
states it (spec-side definition, to be compared with the source's
`priorityOrder` table). -/
def specRank : UrgencyLevel → Nat
  | LOW => 0
  | MEDIUM => 1
  | HIGH => 2
  | EMERGENCY => 3

/-- `mapUrgencyLevel` (`src/lib/ai.ts` lines 709-715): upper-case the token
and fall back to MEDIUM outside the closed enum set. -/
def mapUrgencyLevel (level : String) : UrgencyLevel :=
  let normalized := upperStr level
  if normalized = "LOW" then LOW
  else if normalized = "MEDIUM" then MEDIUM
  else if normalized = "HIGH" then HIGH
  else if normalized = "EMERGENCY" then EMERGENCY
  else MEDIUM

/-! ## Lexical emergency matcher (`src/utils/helpers.ts` lines 191-209) -/

/-- English emergency keyword list. -/
def emergencyKeywordsEN : List String :=
  ["chest pain", "heart attack", "stroke", "unconscious", "bleeding",
   "difficulty breathing", "severe injury", "emergency", "urgent",
   "can\x27t breathe", "fainting", "seizure"]

/-- Bengali emergency keyword list. -/
def emergencyKeywordsBN : List String :=
  ["বুকে ব্যথা", "হার্ট অ্যাটাক", "স্ট্রোক", "অজ্ঞান", "রক্তক্ষরণ",
   "শ্বাসকষ্ট", "গুরুতর আঘাত", "জরুরি", "শ্বাস নিতে পারছি না",
   "চেতনা হারানো", "খিঁচুনি"]

/-- The `emergencyKeywords` object, looked up with the *raw runtime string*
tag: only the keys `"EN"` and `"BN"` exist; any other tag yields
`undefined` (modelled as `none`). -/
def emergencyKeywordTable (language : String) : Option (List String) :=
  if language = "EN" then some emergencyKeywordsEN
  else if language = "BN" then some emergencyKeywordsBN
  else none

/-- `containsEmergencyKeywords` at the raw JavaScript level: on a tag with
no table entry, `emergencyKeywords[language].some(...)` dereferences
`undefined` and throws a `TypeError` (modelled as `Except.error`). -/
def containsEmergencyKeywordsJS (text language : String) :
    Except String Bool :=
  match emergencyKeywordTable language with
  | none => Except.error "TypeError: emergencyKeywords[language] is undefined"
  | some keywords =>
      let textLower := lowerStr text
      Except.ok (keywords.any fun keyword =>
        containsSub (lowerStr keyword).data textLower.data)

/-- The runtime tag the typed route handler passes (`validatedData.language
as Language`, zod-validated against `['EN','BN']`). -/
def langTag : LanguageTag → String
  | LanguageTag.EN => "EN"
  | LanguageTag.BN => "BN"

/-- `containsEmergencyKeywords` as invoked from the symptom-check route,
where the language is already a member of the closed enum. -/
def containsEmergencyKeywords (text : String) (language : LanguageTag) : Bool :=
  match containsEmergencyKeywordsJS text (langTag language) with
  | Except.ok b => b
  | Except.error _ => false

/-! ## Risk score (`calculateRiskScore`, `src/lib/ai.ts` lines 253-271) -/

/-- `/\b(severe|critical|life.threatening|intense|unbearable|emergency)\b/i`. -/
def highRiskPats : List (List CPat) :=
  [wordPat "severe", wordPat "critical", wordPat "life.threatening",
   wordPat "intense", wordPat "unbearable", wordPat "emergency"]

/-- `/\b(mild|slight|minor|occasional)\b/i`. -/
def lowRiskPats : List (List CPat) :=
  [wordPat "mild", wordPat "slight", wordPat "minor", wordPat "occasional"]

/-- Clamp an integer score into `[0, 10]` (`Math.min(Math.max(score, 0), 10)`). -/
def clampInt (x : Int) : Int := min (max x 0) 10

/-- Clamp a rational risk score into `[0, 10]`. -/
def clampRat (x : Rat) : Rat := min (max x 0) 10

/-- `calculateRiskScore` (`src/lib/ai.ts` lines 253-271), translated
statement by statement: base 5, urgency offset, keyword shifts, clamp. -/
def calculateRiskScore (urgencyLevel : UrgencyLevel) (text symptoms : String) : Int :=
  let score : Int := 5
  let score := score +
    match urgencyLevel with
    | LOW => -2
    | MEDIUM => 0
    | HIGH => 2
    | EMERGENCY => 3
  let score :=
    if regexTest highRiskPats text || regexTest highRiskPats symptoms then score + 2
    else score
  let score :=
    if regexTest lowRiskPats text || regexTest lowRiskPats symptoms then score - 1
    else score
  clampInt score

/-- The risk-score formula exactly as the claim states it, with the shift
amounts left as parameters and "appears" read as substring occurrence of
one of the three/three listed words (spec-side definition, for comparison
with `calculateRiskScore`). -/
def specRiskFormula (posShift negShift : Int) (urgencyLevel : UrgencyLevel)
    (text symptoms : String) : Int :=
  let sevWords := ["severe", "critical", "life-threatening"]
  let mitWords := ["mild", "minor", "occasional"]
  let appears (w : String) : Bool :=
    containsSub (lowerStr w).data (lowerStr text).data ||
    containsSub (lowerStr w).data (lowerStr symptoms).data
  let off : Int :=
    match urgencyLevel with
    | LOW => -2
    | MEDIUM => 0
    | HIGH => 2
    | EMERGENCY => 3
  clampInt (5 + off + (if sevWords.any appears then posShift else 0) +
    (if mitWords.any appears then -negShift else 0))

/-! ## Structured extractor (`src/lib/ai.ts` lines 130-288) -/

/-- One step of the split separator regex `/[,;]|\sand\s|or\s/` of
`extractPossibleConditions`: if a separator matches at the head, return how
many characters it consumes (alternatives tried in source order; the
regex has no `i` flag, so `and`/`or` are case-sensitive). -/
def condSepLen (l : List Char) : Option Nat :=
  match l with
  | c :: rest =>
      if c == ',' || c == ';' then some 1
      else if isWS c then
        match rest with
        | 'a' :: 'n' :: 'd' :: w :: _ => if isWS w then some 5 else none
        | _ => none
      else if c == 'o' then
        match rest with
        | 'r' :: w :: _ => if isWS w then some 3 else none
        | _ => none
      else none
  | [] => none

/-- One step of the split separator regex `/[,;]|\sand\s/` of
`extractRecommendations`. -/
def recSepLen (l : List Char) : Option Nat :=
  match l with
  | c :: rest =>
      if c == ',' || c == ';' then some 1
      else if isWS c then
        match rest with
        | 'a' :: 'n' :: 'd' :: w :: _ => if isWS w then some 5 else none
        | _ => none
      else none
  | [] => none

/-- `String.prototype.split` against a separator matcher, scanning left to
right (fuel-driven; the fuel below always suffices since each recursive
step consumes at least one character). -/
def splitByAux (sep : List Char → Option Nat) :
    Nat → List Char → List Char → List String
  | 0, acc, _ => [String.mk acc.reverse]
  | _ + 1, acc, [] => [String.mk acc.reverse]
  | fuel + 1, acc, c :: rest =>
      match sep (c :: rest) with
      | some n => String.mk acc.reverse :: splitByAux sep fuel [] (List.drop (n - 1) rest)
      | none => splitByAux sep fuel (c :: acc) rest

/-- Split a string at every separator occurrence. -/
def splitBy (sep : List Char → Option Nat) (s : String) : List String :=
  splitByAux sep (s.data.length + 1) [] s.data

/-- The fixed fallback vocabulary regex of `extractPossibleConditions`:
`/\b(cold|flu|fever|infection|allergy|asthma|diabetes|hypertension|stroke|heart|lung|cancer)\b/gi`. -/
def medicalTermPats : List (List CPat) :=
  [wordPat "cold", wordPat "flu", wordPat "fever", wordPat "infection",
   wordPat "allergy", wordPat "asthma", wordPat "diabetes",
   wordPat "hypertension", wordPat "stroke", wordPat "heart",
   wordPat "lung", wordPat "cancer"]

/-- `extractPossibleConditions` (`src/lib/ai.ts` lines 207-230).  `cap` is
the capture group produced by the first of the three labelled-section
patterns that matched (`none` when none matched), see the module header.
On a capture: split on `/[,;]|\sand\s|or\s/`, trim, keep fragments longer
than 2 characters, take at most 5.  Otherwise scan for the fixed medical
vocabulary; with no hit, the sentinel `"Common illness"`. -/
def extractPossibleConditions (cap : Option String) (text : String) : List String :=
  match cap with
  | some m =>
      (((splitBy condSepLen m).map trimStr).filter
        (fun condition => condition.length > 2)).take 5
  | none =>
      match regexAll medicalTermPats text with
      | [] => ["Common illness"]
      | terms => (dedup terms).take 5

/-- `extractRecommendations` (`src/lib/ai.ts` lines 232-251): on a capture,
split on `/[,;]|\sand\s/`, trim, keep fragments longer than 5 characters,
take at most 3; otherwise the sentinel recommendation. -/
def extractRecommendations (cap : Option String) : List String :=
  match cap with
  | some m =>
      (((splitBy recSepLen m).map trimStr).filter
        (fun rec => rec.length > 5)).take 3
  | none => ["Consult healthcare provider"]

/-- First alternation of `extractEmergencyFlags`
(`/\b(stroke|heart.attack|cardiac.arrest|sepsis|shock|unconsciousness|severe.bleeding|breathing.difficulty)\b/gi`). -/
def emergencyFlagPats1 : List (List CPat) :=
  [wordPat "stroke", wordPat "heart.attack", wordPat "cardiac.arrest",
   wordPat "sepsis", wordPat "shock", wordPat "unconsciousness",
   wordPat "severe.bleeding", wordPat "breathing.difficulty"]

/-- Second alternation of `extractEmergencyFlags`
(`/\b(emergency|critical|life.threatening|immediate.attention)\b/gi`). -/
def emergencyFlagPats2 : List (List CPat) :=
  [wordPat "emergency", wordPat "critical", wordPat "life.threatening",
   wordPat "immediate.attention"]

/-- `extractEmergencyFlags` (`src/lib/ai.ts` lines 273-288): collect the
matches of both global patterns, de-duplicate, take at most 3. -/
def extractEmergencyFlags (text : String) : List String :=
  (dedup (regexAll emergencyFlagPats1 text ++ regexAll emergencyFlagPats2 text)).take 3

/-! ## Parsed Gemini responses and the direct structured parse -/

/-- A field the source probes with JS truthiness and `Array.isArray`:
either absent / not an array (with its truthiness), or an array of
strings.  A JS array is always truthy, even when empty. -/
inductive JArrField where
  | other (truthy : Bool)
  | arr (xs : List String)
deriving DecidableEq, Repr

/-- JS truthiness of such a field. -/
def JArrField.jsTruthy : JArrField → Bool
  | JArrField.other t => t
  | JArrField.arr _ => true

/-- `Array.isArray(x) ? x : dflt`. -/
def JArrField.asArrD (dflt : List String) : JArrField → List String
  | JArrField.other _ => dflt
  | JArrField.arr xs => xs

/-- The result of a *successful* `JSON.parse` of a symptom-analysis reply,
restricted to the observations the source makes of it: the three
array-probed fields, the `urgencyLevel` string field (`none` = absent;
`some ""` is falsy), and `riskScore` (`some q` iff present with
`typeof === "number"`). -/
structure GeminiParsed where
  possibleConditions : JArrField
  urgencyLevel : Option String
  recommendations : JArrField
  riskScore : Option Rat
  emergencyFlags : JArrField
deriving DecidableEq, Repr

/-- JS truthiness of the optional string field. -/
def jsStrTruthy : Option String → Bool
  | none => false
  | some s => s ≠ ""

/-- `x || dflt` on the optional string field. -/
def jsStrOr (dflt : String) : Option String → String
  | none => dflt
  | some s => if s = "" then dflt else s

/-- The canonical structured triage record (`SymptomAnalysis` interface,
`src/lib/ai.ts` lines 290-296). -/
structure SymptomAnalysis where
  possibleConditions : List String
  urgencyLevel : UrgencyLevel
  recommendations : List String
  riskScore : Rat
  emergencyFlags : List String
deriving DecidableEq, Repr

/-- The direct structured parse branch of
`processGeminiResponseWithTransformer` (`src/lib/ai.ts` lines 136-147):
accept when `parsed.possibleConditions && parsed.urgencyLevel &&
parsed.recommendations` are all truthy, then copy the arrays unchanged
(defaulting non-arrays), normalize the urgency token, and clamp a numeric
risk score (defaulting a missing/non-numeric one to 5). -/
def directParse (parsed : GeminiParsed) : Option SymptomAnalysis :=
  if parsed.possibleConditions.jsTruthy && jsStrTruthy parsed.urgencyLevel &&
      parsed.recommendations.jsTruthy then
    some
      { possibleConditions := parsed.possibleConditions.asArrD []
        urgencyLevel := mapUrgencyLevel (jsStrOr "MEDIUM" parsed.urgencyLevel)
        recommendations := parsed.recommendations.asArrD []
        riskScore :=
          match parsed.riskScore with
          | some q => clampRat q
          | none => 5
        emergencyFlags := parsed.emergencyFlags.asArrD [] }
  else none

/-- The fallback direct JSON parse inside `analyzeSymptoms`
(`src/lib/ai.ts` lines 384-403), reached when the transformer pipeline
itself failed but the raw text still parses as JSON: no field guard,
arrays copied unchanged with sentinels for non-arrays, risk clamped. -/
def fallbackJsonParse (parsed : GeminiParsed) : SymptomAnalysis :=
  { possibleConditions := parsed.possibleConditions.asArrD []
    urgencyLevel := mapUrgencyLevel (jsStrOr "MEDIUM" parsed.urgencyLevel)
    recommendations := parsed.recommendations.asArrD ["Consult healthcare provider"]
    riskScore :=
      match parsed.riskScore with
      | some q => clampRat q
      | none => clampRat 5
    emergencyFlags := parsed.emergencyFlags.asArrD [] }

/-- The transformer-pipeline fallback record
(`processGeminiResponseWithTransformer`, `src/lib/ai.ts` lines 196-202). -/
def pipelineFallbackRecord : SymptomAnalysis :=
  { possibleConditions := ["Analysis pending"]
    urgencyLevel := MEDIUM
    recommendations := ["Consult healthcare provider"]
    riskScore := 5
    emergencyFlags := [] }

/-- The outer safe-fallback record of `analyzeSymptoms`
(`src/lib/ai.ts` lines 424-432). -/
def analyzeOuterFallbackRecord : SymptomAnalysis :=
  { possibleConditions := ["Unable to analyze - please consult healthcare provider"]
    urgencyLevel := MEDIUM
    recommendations := ["Contact medical professional for proper diagnosis"]
    riskScore := 5
    emergencyFlags := [] }

/-- The route handler's default analysis value (`src/unnamed/part_005`
lines 186-192), used when the settled analysis promise was rejected. -/
def routeDefaultAnalysis : SymptomAnalysis :=
  { possibleConditions := ["Analysis pending"]
    urgencyLevel := MEDIUM
    recommendations := ["Consult healthcare provider"]
    riskScore := 5
    emergencyFlags := [] }

/-! ## Boundary collaborators -/

/-- State of the lazily-loaded zero-shot classifier for one request:
either the pipeline failed to load (every wrapper then takes its
fail-safe branch), or it is available and, for the texts of this request,
returns the given urgency label, binary emergency label, and (already
score-filtered and label-mapped) recommendation labels. -/
inductive ClassState where
  | unavailable
  | available (urgVote : UrgencyLevel) (emergVote : Bool) (recVotes : List String)
deriving DecidableEq, Repr

/-- `classifyUrgencyLevel` (`src/lib/ai.ts` lines 45-67): MEDIUM when the
classifier is unavailable (and on any classification error), otherwise the
top label mapped into the enum. -/
def classifyUrgencyLevel : ClassState → UrgencyLevel
  | ClassState.unavailable => MEDIUM
  | ClassState.available v _ _ => v

/-- `validateEmergencyDetection` (`src/lib/ai.ts` lines 69-88): false when
the classifier is unavailable (and on any error), otherwise whether the
top label of the binary framing is the emergency one. -/
def validateEmergencyDetection : ClassState → Bool
  | ClassState.unavailable => false
  | ClassState.available _ e _ => e

/-- `classifyRecommendations` (`src/lib/ai.ts` lines 90-127): the sentinel
when unavailable; otherwise the filtered votes capped at 3, with the
sentinel again when that list is empty. -/
def classifyRecommendations : ClassState → List String
  | ClassState.unavailable => ["Consult healthcare provider"]
  | ClassState.available _ _ rv =>
      let recommendations := rv.take 3
      if recommendations.isEmpty then ["Consult healthcare provider"] else recommendations

/-- What the generation collaborator handed back for the symptom-analysis
request: the raw text together with the outcome of `JSON.parse` on it
(`none` = the parse threw) and the captures of the labelled-section
patterns on it (see the module header). -/
structure GenText where
  raw : String
  parsed : Option GeminiParsed
  condCap : Option String
  recCap : Option String

/-- Behaviour of the generation collaborator for the symptom-analysis
request: missing API key (the wrapper throws before calling out), a failed
API call (the wrapper substitutes a fixed fallback JSON text,
`src/lib/ai.ts` lines 339-349), or a returned text. -/
inductive GenBehavior where
  | noKey
  | apiFailure
  | ok (gt : GenText)

/-- The substituted fallback text of `analyzeSymptoms` on API failure
(`JSON.stringify` of the fixed object; braces escaped). -/
def geminiAnalysisFallbackText : String :=
  "\x7b\"possibleConditions\":[\"Analysis temporarily unavailable\"],\"urgencyLevel\":\"MEDIUM\",\"recommendations\":[\"Please consult a healthcare professional\"],\"riskScore\":5,\"emergencyFlags\":[]\x7d"

/-- `JSON.parse` of that fallback text. -/
def geminiAnalysisFallbackParsed : GeminiParsed :=
  { possibleConditions := JArrField.arr ["Analysis temporarily unavailable"]
    urgencyLevel := some "MEDIUM"
    recommendations := JArrField.arr ["Please consult a healthcare professional"]
    riskScore := some 5
    emergencyFlags := JArrField.arr [] }

/-- The text `analyzeSymptoms` goes on to process (the substituted
fallback on API failure; its direct parse succeeds, so the captures are
never consulted on that path). -/
def effectiveGenText : GenBehavior → GenText
  | GenBehavior.noKey =>
      { raw := "", parsed := none, condCap := none, recCap := none }
  | GenBehavior.apiFailure =>
      { raw := geminiAnalysisFallbackText
        parsed := some geminiAnalysisFallbackParsed
        condCap := none, recCap := none }
  | GenBehavior.ok gt => gt

/-- `processGeminiResponseWithTransformer` (`src/lib/ai.ts` lines
130-204): direct structured parse first; otherwise the pattern-based path,
which needs the classifier (unavailable ⇒ the internal `catch` returns the
fixed fallback record); all errors are absorbed, the function never
throws. -/
def processGeminiResponseWithTransformer (gt : GenText) (cs : ClassState)
    (originalSymptoms : String) : SymptomAnalysis :=
  match gt.parsed.bind directParse with
  | some record => record
  | none =>
      match cs with
      | ClassState.unavailable => pipelineFallbackRecord
      | ClassState.available v _ _ =>
          { possibleConditions := extractPossibleConditions gt.condCap gt.raw
            urgencyLevel := v
            recommendations := extractRecommendations gt.recCap
            riskScore := ((calculateRiskScore v gt.raw originalSymptoms : Int) : Rat)
            emergencyFlags := extractEmergencyFlags gt.raw }

/-- `analyzeSymptoms` (`src/lib/ai.ts` lines 305-434): process the
(possibly substituted) Gemini text, merge in the classifier's urgency vote
through `getHigherPriorityUrgency`, and replace sentinel/empty
recommendations by the classifier's recommendation votes.  A missing API
key short-circuits to the outer safe-fallback record. -/
def analyzeSymptoms (g : GenBehavior) (cs : ClassState) (symptoms : String) :
    SymptomAnalysis :=
  match g with
  | GenBehavior.noKey => analyzeOuterFallbackRecord
  | _ =>
      let gt := effectiveGenText g
      let analysis := processGeminiResponseWithTransformer gt cs symptoms
      let enhancedUrgencyLevel := classifyUrgencyLevel cs
      let finalUrgencyLevel :=
        getHigherPriorityUrgency analysis.urgencyLevel enhancedUrgencyLevel
      let finalRecommendations :=
        if analysis.recommendations.isEmpty ||
            (analysis.recommendations.head? == some "Consult healthcare provider") then
          let enhanced := classifyRecommendations cs
          if enhanced.length > 0 then enhanced else analysis.recommendations
        else analysis.recommendations
      { analysis with
          urgencyLevel := finalUrgencyLevel
          recommendations := finalRecommendations }

/-- The result of a successful `JSON.parse` of an emergency-assessment
reply, restricted to the observations the source makes: `isEmergency`
(`some b` iff present with `typeof === "boolean"`), and the two string
fields read through `x || ""`. -/
structure EmergParsed where
  isEmergency : Option Bool
  emergencyType : Option String
  message : Option String
deriving DecidableEq, Repr

/-- Behaviour of the generation collaborator for the emergency-assessment
request. -/
inductive EmergBehavior where
  | noKey
  | apiFailure
  | ok (raw : String) (parsed : Option EmergParsed)

/-- `JSON.parse` of the fixed fallback text `detectEmergency` substitutes
on API failure (`src/lib/ai.ts` lines 576-584). -/
def emergencyFallbackParsed : EmergParsed :=
  { isEmergency := some false
    emergencyType := some ""
    message := some "Unable to analyze - please contact emergency services if symptoms are severe" }

/-- The narrow emergency result (`detectEmergency` return shape):
`emergencyType` is `none` on the paths that omit the field. -/
structure EmergencyResult where
  isEmergency : Bool
  emergencyType : Option String
  message : String
deriving DecidableEq, Repr

/-- Localized message of the parse-error branch when validation fired
(`src/lib/ai.ts` lines 618-621). -/
def emergencyDetectedMsg : LanguageTag → String
  | LanguageTag.BN => "জরুরি অবস্থা সনাক্ত হয়েছে। দ্রুত চিকিৎসকের সাথে যোগাযোগ করুন।"
  | LanguageTag.EN => "Emergency situation detected. Please contact medical professional immediately."

/-- Localized message of the parse-error branch when validation did not
fire (`src/lib/ai.ts` lines 622-624). -/
def analysisIncompleteMsg : LanguageTag → String
  | LanguageTag.BN => "বিশ্লেষণ সম্পূর্ণ হয়নি। অনুগ্রহ করে চিকিৎসকের সাথে যোগাযোগ করুন।"
  | LanguageTag.EN => "Analysis incomplete. Please contact medical professional."

/-- Localized message of the outer catch (`src/lib/ai.ts` lines 639-645). -/
def detectionErrorMsg : LanguageTag → String
  | LanguageTag.BN => "জরুরি সনাক্তকরণ সিস্টেমে সমস্যা হয়েছে। অনুগ্রহ করে সরাসরি জরুরি সেবায় যোগাযোগ করুন।"
  | LanguageTag.EN => "Emergency detection system error. Please contact emergency services directly."

/-- `detectEmergency` (`src/lib/ai.ts` lines 527-647).  The validator's
vote is OR'd over the parsed `isEmergency`; a parse failure falls back to
the validator alone; unavailable validation contributes `false`; a missing
API key short-circuits to the outer catch. -/
def detectEmergency (eb : EmergBehavior) (cs : ClassState)
    (language : LanguageTag) : EmergencyResult :=
  match eb with
  | EmergBehavior.noKey =>
      { isEmergency := false, emergencyType := none
        message := detectionErrorMsg language }
  | EmergBehavior.apiFailure =>
      let p := emergencyFallbackParsed
      let validatedEmergency := validateEmergencyDetection cs
      { isEmergency := validatedEmergency || p.isEmergency.getD false
        emergencyType := some (jsStrOr "" p.emergencyType)
        message := jsStrOr "" p.message }
  | EmergBehavior.ok _ parsed =>
      match parsed with
      | some p =>
          let validatedEmergency := validateEmergencyDetection cs
          { isEmergency := validatedEmergency || p.isEmergency.getD false
            emergencyType := some (jsStrOr "" p.emergencyType)
            message := jsStrOr "" p.message }
      | none =>
          let isEmergencyValidated := validateEmergencyDetection cs
          { isEmergency := isEmergencyValidated
            emergencyType := none
            message :=
              if isEmergencyValidated then emergencyDetectedMsg language
              else analysisIncompleteMsg language }

/-! ## The symptom-check POST route (`src/unnamed/part_005` lines 141-322) -/

/-- The `emergencyAlert` record the route creates (the fields the claims
speak about). -/
structure EmergencyAlert where
  emergencyType : String
  urgencyLevel : UrgencyLevel
  alertMessage : String
  recommendedAction : String
deriving DecidableEq, Repr

/-- Localized `recommendedAction` of the alert (`src/unnamed/part_005`
lines 261-263). -/
def alertRecommendedAction : LanguageTag → String
  | LanguageTag.BN => "অবিলম্বে নিকটতম জরুরি সেবায় যোগাযোগ করুন"
  | LanguageTag.EN => "Contact nearest emergency services immediately"

/-- The externally visible triage outcome assembled by the route: the
final urgency, the response's `emergency.isEmergency` flag, its message,
and the emergency alert if one was created. -/
structure FinalTriageOutcome where
  urgencyLevel : UrgencyLevel
  isEmergency : Bool
  message : String
  alert : Option EmergencyAlert
deriving DecidableEq, Repr

/-- The arbitration and output assembly of the POST handler
(`src/unnamed/part_005` lines 174-297): lexical keyword check, the two
settled collaborator results (both wrappers are total, so both promises
fulfil), escalation to EMERGENCY when the detector or the keywords fire,
alert creation, and the response's emergency block. -/
def postOutcome (symptoms : String) (language : LanguageTag)
    (g : GenBehavior) (eb : EmergBehavior) (cs : ClassState) :
    FinalTriageOutcome :=
  let hasEmergencyKeywords := containsEmergencyKeywords symptoms language
  let analysis := analyzeSymptoms g cs symptoms
  let emergency := detectEmergency eb cs language
  let finalUrgencyLevel :=
    if emergency.isEmergency || hasEmergencyKeywords then EMERGENCY
    else analysis.urgencyLevel
  let emergencyAlert :=
    if emergency.isEmergency || decide (finalUrgencyLevel = EMERGENCY) then
      some
        { emergencyType :=
            if emergency.isEmergency then "MEDICAL_EMERGENCY" else "OTHER"
          urgencyLevel := EMERGENCY
          alertMessage :=
            if emergency.message = "" then "Emergency symptoms detected"
            else emergency.message
          recommendedAction := alertRecommendedAction language }
    else none
  { urgencyLevel := finalUrgencyLevel
    isEmergency := emergency.isEmergency || decide (finalUrgencyLevel = EMERGENCY)
    message := emergency.message
    alert := emergencyAlert }

/-! ## Claim-side predicates and concrete inputs -/

/-- The bound/non-emptiness invariant the spec asserts of every analysis
record. -/
def boundedRecord (a : SymptomAnalysis) : Prop :=
  a.possibleConditions ≠ [] ∧ a.possibleConditions.length ≤ 5 ∧
  a.recommendations ≠ [] ∧ a.recommendations.length ≤ 3

/-- A well-typed parsed reply with six conditions and an empty (but
truthy, since JS arrays are always truthy) recommendations array. -/
def unboundedParsedReply : GeminiParsed :=
  { possibleConditions :=
      JArrField.arr ["flu", "cold", "fever", "allergy", "asthma", "migraine"]
    urgencyLevel := some "LOW"
    recommendations := JArrField.arr []
    riskScore := some 7
    emergencyFlags := JArrField.arr [] }

/-- What the direct structured parse makes of `unboundedParsedReply`. -/
def unboundedRecord : SymptomAnalysis :=
  { possibleConditions := ["flu", "cold", "fever", "allergy", "asthma", "migraine"]
    urgencyLevel := LOW
    recommendations := []
    riskScore := 7
    emergencyFlags := [] }

/-- A parsed reply with an out-of-range risk score 99. -/
def riskWitnessParsed : GeminiParsed :=
  { possibleConditions := JArrField.arr ["flu"]
    urgencyLevel := some "HIGH"
    recommendations := JArrField.arr ["rest at home today"]
    riskScore := some 99
    emergencyFlags := JArrField.arr [] }

/-- What the direct structured parse makes of `riskWitnessParsed` (score
clamped to 10). -/
def riskWitnessRecord : SymptomAnalysis :=
  { possibleConditions := ["flu"]
    urgencyLevel := HIGH
    recommendations := ["rest at home today"]
    riskScore := 10
    emergencyFlags := [] }

/-- The alert the route creates in the chest-pain scenario with both
collaborators unavailable. -/
def scenarioAlert : EmergencyAlert :=
  { emergencyType := "OTHER"
    urgencyLevel := EMERGENCY
    alertMessage := "Unable to analyze - please contact emergency services if symptoms are severe"
    recommendedAction := "Contact nearest emergency services immediately" }

/-! ## Theorems -/

/-- Core boolean fact behind the escalation invariant of the route's
arbitration. -/
lemma escalation_core (e kw : Bool) (u : UrgencyLevel)
    (h : (e || decide ((if e || kw then EMERGENCY else u) = EMERGENCY)) = true) :
    (if e || kw then EMERGENCY else u) = EMERGENCY := by
  cases e <;> cases kw <;> cases u <;> simp_all

/-- C1: for every well-formed request (any symptoms, language and
collaborator behaviours), if the outcome's `is_emergency` field is true
then its `urgency_level` field is EMERGENCY. -/
theorem post_escalation_invariant (symptoms : String) (language : LanguageTag)
    (g : GenBehavior) (eb : EmergBehavior) (cs : ClassState)
    (h : (postOutcome symptoms language g eb cs).isEmergency = true) :
    (postOutcome symptoms language g eb cs).urgencyLevel = EMERGENCY :=
  escalation_core _ _ _ h

/-- Witness for C1: the spec's emergency scenario with both collaborators
unavailable. -/
theorem post_escalation_invariant_witness :
    (postOutcome "I have chest pain and difficulty breathing" LanguageTag.EN
      GenBehavior.apiFailure EmergBehavior.apiFailure
      ClassState.unavailable).urgencyLevel = EMERGENCY :=
  post_escalation_invariant _ _ _ _ _ (by decide)

/-- Core boolean fact: the response's emergency flag is the OR of the three
signals. -/
lemma or_of_three_core (e kw : Bool) (u : UrgencyLevel) :
    (e || decide ((if e || kw then EMERGENCY else u) = EMERGENCY)) =
      (kw || e || decide (u = EMERGENCY)) := by
  cases e <;> cases kw <;> cases u <;> simp_all

/-- C2: the outcome's `is_emergency` equals the OR of exactly the lexical
keyword signal, the emergency detector's vote, and the extracted analysis
record's urgency being EMERGENCY; and in the spec's chest-pain scenario
with both collaborators unavailable, `is_emergency` is true and
`urgency_level` is EMERGENCY. -/
theorem post_isEmergency_or_of_three_signals (symptoms : String)
    (language : LanguageTag) (g : GenBehavior) (eb : EmergBehavior)
    (cs : ClassState) :
    (postOutcome symptoms language g eb cs).isEmergency =
      (containsEmergencyKeywords symptoms language ||
        (detectEmergency eb cs language).isEmergency ||
        decide ((analyzeSymptoms g cs symptoms).urgencyLevel = EMERGENCY)) ∧
    (postOutcome "I have chest pain and difficulty breathing" LanguageTag.EN
      GenBehavior.apiFailure EmergBehavior.apiFailure
      ClassState.unavailable).isEmergency = true ∧
    (postOutcome "I have chest pain and difficulty breathing" LanguageTag.EN
      GenBehavior.apiFailure EmergBehavior.apiFailure
      ClassState.unavailable).urgencyLevel = EMERGENCY := by
  refine ⟨?_, by decide, by decide⟩
  have := or_of_three_core (detectEmergency eb cs language).isEmergency
    (containsEmergencyKeywords symptoms language)
    (analyzeSymptoms g cs symptoms).urgencyLevel
  simpa [postOutcome] using this

/-- C6: `getHigherPriorityUrgency` returns one of its two arguments and is
an upper bound of both under the ordinal rank LOW < MEDIUM < HIGH <
EMERGENCY (hence the maximum, and the second vote can only raise, never
lower, the first); in particular a LOW vote leaves a MEDIUM baseline at
MEDIUM. -/
theorem urgency_merge_is_max :
    (∀ a b : UrgencyLevel,
      (getHigherPriorityUrgency a b = a ∨ getHigherPriorityUrgency a b = b) ∧
      specRank a ≤ specRank (getHigherPriorityUrgency a b) ∧
      specRank b ≤ specRank (getHigherPriorityUrgency a b)) ∧
    getHigherPriorityUrgency MEDIUM LOW = MEDIUM := by
  refine ⟨fun a b => ?_, by decide⟩
  cases a <;> cases b <;> refine ⟨by decide, by decide, by decide⟩

/-- C8: any urgency token whose upper-casing lies outside the closed enum
set normalizes to MEDIUM (never to LOW). -/
theorem mapUrgency_default_medium (s : String)
    (h : upperStr s ≠ "LOW" ∧ upperStr s ≠ "MEDIUM" ∧ upperStr s ≠ "HIGH" ∧
      upperStr s ≠ "EMERGENCY") :
    mapUrgencyLevel s = MEDIUM ∧ mapUrgencyLevel s ≠ LOW := by
  obtain ⟨h1, h2, h3, h4⟩ := h
  constructor <;> simp [mapUrgencyLevel, h1, h2, h3, h4]

/-- Witness for C8: the spec's `"critical"` token normalizes to MEDIUM. -/
theorem mapUrgency_default_medium_witness :
    mapUrgencyLevel "critical" = MEDIUM ∧ mapUrgencyLevel "critical" ≠ LOW :=
  mapUrgency_default_medium "critical" (by decide)

/-- C3 counterexample: on the unsupported tag `"FR"`, the lexical matcher
dereferences a missing table entry and throws — it does not return false. -/
theorem lexical_unsupported_tag_cex :
    containsEmergencyKeywordsJS "help" "FR" =
      Except.error "TypeError: emergencyKeywords[language] is undefined" ∧
    containsEmergencyKeywordsJS "help" "FR" ≠ Except.ok false :=
  ⟨rfl, fun h => by simp [containsEmergencyKeywordsJS, emergencyKeywordTable] at h⟩

/-- C3 amended: for every language tag outside the supported set
{EN, BN}, `containsEmergencyKeywords` raises a `TypeError` (the keyword
table has no entry for the tag) instead of returning false; only the
zod validation in front of the route keeps such tags away from it. -/
theorem lexical_unsupported_tag_throws (text language : String)
    (h1 : language ≠ "EN") (h2 : language ≠ "BN") :
    containsEmergencyKeywordsJS text language =
      Except.error "TypeError: emergencyKeywords[language] is undefined" := by
  unfold containsEmergencyKeywordsJS emergencyKeywordTable
  simp [h1, h2]

/-- Witness for the amended C3. -/
theorem lexical_unsupported_tag_throws_witness :
    containsEmergencyKeywordsJS "help" "FR" =
      Except.error "TypeError: emergencyKeywords[language] is undefined" :=
  lexical_unsupported_tag_throws "help" "FR" (by decide) (by decide)

/-- C4 counterexample: the direct structured parse copies the parsed
arrays unchanged — a six-element conditions array stays six long and an
empty recommendations array stays empty (JS arrays are truthy, so the
field guard passes) — and even the pattern-based path can return an empty
conditions list when every captured fragment is at most two characters. -/
theorem extraction_bounds_cex :
    directParse unboundedParsedReply = some unboundedRecord ∧
    ¬ boundedRecord unboundedRecord ∧
    extractPossibleConditions (some "a, b") "possible conditions: a, b" = [] := by
  refine ⟨by decide, ?_, by decide⟩
  intro h
  exact absurd h.2.2.1 (by decide)

/-- C4 amended: the pattern-based extraction caps conditions at 5 and
recommendations at 3, the no-capture fallback (vocabulary scan or
sentinel) additionally never returns an empty conditions list, and the
fixed default records satisfy the full bound/non-emptiness invariant;
the parse-copying paths give no such guarantee. -/
theorem extraction_bounds_amended :
    (∀ cap text, (extractPossibleConditions cap text).length ≤ 5) ∧
    (∀ text, extractPossibleConditions none text ≠ []) ∧
    (∀ cap, (extractRecommendations cap).length ≤ 3) ∧
    boundedRecord pipelineFallbackRecord ∧
    boundedRecord analyzeOuterFallbackRecord ∧
    boundedRecord routeDefaultAnalysis := by
  refine ⟨?_, ?_, ?_, ?_, ?_, ?_⟩
  · intro cap text
    cases cap with
    | some m => simp [extractPossibleConditions]
    | none =>
        cases h : regexAll medicalTermPats text with
        | nil => simp [extractPossibleConditions, h]
        | cons t ts =>
            simp [extractPossibleConditions, h]
  · intro text
    cases h : regexAll medicalTermPats text with
    | nil => simp [extractPossibleConditions, h]
    | cons t ts => simp [extractPossibleConditions, h, dedup]
  · intro cap
    cases cap with
    | some m => simp [extractRecommendations]
    | none => simp [extractRecommendations]
  · exact ⟨by decide, by decide, by decide, by decide⟩
  · exact ⟨by decide, by decide, by decide, by decide⟩
  · exact ⟨by decide, by decide, by decide, by decide⟩

/-- Integer clamp stays in `[0, 10]`. -/
lemma clampInt_bounds (x : Int) : 0 ≤ clampInt x ∧ clampInt x ≤ 10 :=
  ⟨le_min (le_max_right x 0) (by norm_num), min_le_right _ _⟩

/-- Rational clamp stays in `[0, 10]`. -/
lemma clampRat_bounds (x : Rat) : 0 ≤ clampRat x ∧ clampRat x ≤ 10 :=
  ⟨le_min (le_max_right x 0) (by norm_num), min_le_right _ _⟩

/-- The synthesized risk score is clamped into `[0, 10]`. -/
lemma calculateRiskScore_bounds (u : UrgencyLevel) (t s : String) :
    0 ≤ calculateRiskScore u t s ∧ calculateRiskScore u t s ≤ 10 :=
  clampInt_bounds _

/-- Any record the direct structured parse accepts carries a risk score in
`[0, 10]`. -/
lemma directParse_risk_bounds (p : GeminiParsed) (r : SymptomAnalysis)
    (h : directParse p = some r) : 0 ≤ r.riskScore ∧ r.riskScore ≤ 10 := by
  unfold directParse at h
  split at h
  · cases h
    cases hq : p.riskScore with
    | some q => simp only [hq]; exact clampRat_bounds q
    | none => simp only [hq]; norm_num
  · cases h

/-- The risk score of any record produced by the transformer-pipeline
processor is in `[0, 10]`. -/
lemma processGemini_risk_bounds (gt : GenText) (cs : ClassState) (s : String) :
    0 ≤ (processGeminiResponseWithTransformer gt cs s).riskScore ∧
      (processGeminiResponseWithTransformer gt cs s).riskScore ≤ 10 := by
  unfold processGeminiResponseWithTransformer
  cases h : gt.parsed.bind directParse with
  | some r =>
      simp only [h]
      cases hp : gt.parsed with
      | none => rw [hp] at h; cases h
      | some p =>
          rw [hp] at h
          exact directParse_risk_bounds p r (by simpa using h)
  | none =>
      simp only [h]
      cases cs with
      | unavailable => norm_num [pipelineFallbackRecord]
      | available v e rv =>
          dsimp only
          refine ⟨?_, ?_⟩
          · exact_mod_cast (calculateRiskScore_bounds v gt.raw s).1
          · exact_mod_cast (calculateRiskScore_bounds v gt.raw s).2

/-- C5: every extraction path keeps the risk score in `[0, 10]`: the
direct structured parse, the synthesized score, the fallback JSON parse,
each fixed default record, and hence every record `analyzeSymptoms`
returns. -/
theorem risk_score_clamped :
    (∀ p r, directParse p = some r → 0 ≤ r.riskScore ∧ r.riskScore ≤ 10) ∧
    (∀ u t s, 0 ≤ calculateRiskScore u t s ∧ calculateRiskScore u t s ≤ 10) ∧
    (∀ p, 0 ≤ (fallbackJsonParse p).riskScore ∧ (fallbackJsonParse p).riskScore ≤ 10) ∧
    (0 ≤ pipelineFallbackRecord.riskScore ∧ pipelineFallbackRecord.riskScore ≤ 10) ∧
    (0 ≤ analyzeOuterFallbackRecord.riskScore ∧ analyzeOuterFallbackRecord.riskScore ≤ 10) ∧
    (0 ≤ routeDefaultAnalysis.riskScore ∧ routeDefaultAnalysis.riskScore ≤ 10) ∧
    (∀ g cs s, 0 ≤ (analyzeSymptoms g cs s).riskScore ∧
      (analyzeSymptoms g cs s).riskScore ≤ 10) := by
  refine ⟨directParse_risk_bounds, calculateRiskScore_bounds, ?_,
    by norm_num [pipelineFallbackRecord],
    by norm_num [analyzeOuterFallbackRecord],
    by norm_num [routeDefaultAnalysis], ?_⟩
  · intro p
    unfold fallbackJsonParse
    cases hq : p.riskScore with
    | some q => simp only [hq]; exact clampRat_bounds q
    | none => simp only [hq]; exact clampRat_bounds 5
  · intro g cs s
    cases g with
    | noKey => simp [analyzeSymptoms, analyzeOuterFallbackRecord]; norm_num
    | apiFailure => exact processGemini_risk_bounds _ cs s
    | ok gt => exact processGemini_risk_bounds _ cs s

/-- Witness for C5: a parsed reply carrying risk score 99 is clamped to
10, which lies in the bounds. -/
theorem risk_score_clamped_witness :
    0 ≤ riskWitnessRecord.riskScore ∧ riskWitnessRecord.riskScore ≤ 10 :=
  risk_score_clamped.1 riskWitnessParsed riskWitnessRecord (by decide)

/-- C7 counterexample: on urgency MEDIUM, model text `"intense"`, empty
narrative, none of the claim's three severity words and none of its three
mitigating words appears (as substrings, case-insensitively), so the
claimed formula yields `clamp(5 + 0 + 0 + 0) = 5` for any shift amounts —
but the source also shifts on `"intense"` and returns 7. -/
theorem risk_formula_cex :
    calculateRiskScore MEDIUM "intense" "" = 7 ∧
    specRiskFormula 2 1 MEDIUM "intense" "" = 5 ∧
    specRiskFormula 3 2 MEDIUM "intense" "" = 5 :=
  ⟨by decide, by decide, by decide⟩

/-- C7 amended: the synthesized risk score equals the clamp into `[0,10]`
of baseline 5, plus the urgency offset (LOW −2, MEDIUM 0, HIGH +2,
EMERGENCY +3), plus 2 when the severity regex
`\b(severe|critical|life.threatening|intense|unbearable|emergency)\b/i`
matches the raw model text or the narrative, minus 1 when the mitigating
regex `\b(mild|slight|minor|occasional)\b/i` matches either. -/
theorem risk_formula_amended (u : UrgencyLevel) (text symptoms : String) :
    calculateRiskScore u text symptoms =
      clampInt (5 +
        (match u with | LOW => -2 | MEDIUM => 0 | HIGH => 2 | EMERGENCY => 3) +
        (if regexTest highRiskPats text || regexTest highRiskPats symptoms
          then 2 else 0) +
        (if regexTest lowRiskPats text || regexTest lowRiskPats symptoms
          then -1 else 0)) := by
  unfold calculateRiskScore
  cases u <;>
    cases hHi : regexTest highRiskPats text || regexTest highRiskPats symptoms <;>
    cases hLo : regexTest lowRiskPats text || regexTest lowRiskPats symptoms <;>
    simp [hHi, hLo]

/-- A (LOW, non-emergency) classifier and an unavailable classifier make
`detectEmergency` return the same result. -/
lemma detectEmergency_lowvote_eq (eb : EmergBehavior) (rv : List String)
    (language : LanguageTag) :
    detectEmergency eb (ClassState.available LOW false rv) language =
      detectEmergency eb ClassState.unavailable language := by
  cases eb with
  | noKey => rfl
  | apiFailure => rfl
  | ok raw parsed => cases parsed <;> rfl

/-- Merging with a MEDIUM vote never ranks below merging with a LOW vote. -/
lemma ghpu_mono_second (u : UrgencyLevel) :
    specRank (getHigherPriorityUrgency u LOW) ≤
      specRank (getHigherPriorityUrgency u MEDIUM) := by
  cases u <;> decide

/-- The processed-and-merged urgency under an unavailable classifier is at
least the one under a classifier voting LOW. -/
lemma process_then_merge_mono (gt : GenText) (rv : List String) (s : String) :
    specRank (getHigherPriorityUrgency
        (processGeminiResponseWithTransformer gt
          (ClassState.available LOW false rv) s).urgencyLevel
        (classifyUrgencyLevel (ClassState.available LOW false rv))) ≤
      specRank (getHigherPriorityUrgency
        (processGeminiResponseWithTransformer gt ClassState.unavailable s).urgencyLevel
        (classifyUrgencyLevel ClassState.unavailable)) := by
  unfold processGeminiResponseWithTransformer classifyUrgencyLevel
  cases h : gt.parsed.bind directParse with
  | some r =>
      simp only [h]
      exact ghpu_mono_second r.urgencyLevel
  | none =>
      simp only [h]
      decide

/-- Urgency monotonicity of `analyzeSymptoms` under classifier loss. -/
lemma analyzeSymptoms_urgency_mono (g : GenBehavior) (rv : List String)
    (s : String) :
    specRank ((analyzeSymptoms g (ClassState.available LOW false rv) s).urgencyLevel) ≤
      specRank ((analyzeSymptoms g ClassState.unavailable s).urgencyLevel) := by
  cases g with
  | noKey => exact le_refl _
  | apiFailure =>
      exact process_then_merge_mono (effectiveGenText GenBehavior.apiFailure) rv s
  | ok gt =>
      exact process_then_merge_mono (effectiveGenText (GenBehavior.ok gt)) rv s

/-- C9: for a fixed input and fixed generation-collaborator behaviour, the
urgency computed with the classification collaborator unavailable is at
least (under LOW < MEDIUM < HIGH < EMERGENCY) the urgency computed with it
available and returning a non-emergency LOW vote. -/
theorem urgency_monotone_under_signal_loss (symptoms : String)
    (language : LanguageTag) (g : GenBehavior) (eb : EmergBehavior)
    (rv : List String) :
    specRank ((postOutcome symptoms language g eb
        (ClassState.available LOW false rv)).urgencyLevel) ≤
      specRank ((postOutcome symptoms language g eb
        ClassState.unavailable).urgencyLevel) := by
  have hd := detectEmergency_lowvote_eq eb rv language
  cases hc : ((detectEmergency eb ClassState.unavailable language).isEmergency ||
      containsEmergencyKeywords symptoms language) with
  | true => simp [postOutcome, hd, hc]
  | false =>
      simp only [Bool.or_eq_false_iff] at hc
      simp [postOutcome, hd, hc.1, hc.2]
      exact analyzeSymptoms_urgency_mono g rv symptoms

/-- C10: whenever the route creates an emergency alert, its urgency level
is EMERGENCY, and its `emergencyType` is `'MEDICAL_EMERGENCY'` exactly
when the emergency detector itself voted true — an alert raised only by
the lexical match or the extractor's EMERGENCY urgency gets `'OTHER'`. -/
theorem alert_fields (symptoms : String) (language : LanguageTag)
    (g : GenBehavior) (eb : EmergBehavior) (cs : ClassState)
    (a : EmergencyAlert)
    (h : (postOutcome symptoms language g eb cs).alert = some a) :
    a.urgencyLevel = EMERGENCY ∧
    (a.emergencyType = "MEDICAL_EMERGENCY" ↔
      (detectEmergency eb cs language).isEmergency = true) ∧
    ((detectEmergency eb cs language).isEmergency = false →
      a.emergencyType = "OTHER") := by
  cases he : (detectEmergency eb cs language).isEmergency with
  | true =>
      simp [postOutcome, he] at h
      simp [← h, he]
  | false =>
      cases hu : (analyzeSymptoms g cs symptoms).urgencyLevel with
      | EMERGENCY =>
          simp [postOutcome, he, hu] at h
          simp [← h, he]
      | LOW =>
          cases hk : containsEmergencyKeywords symptoms language with
          | true =>
              simp [postOutcome, he, hu, hk] at h
              simp [← h, he]
          | false => simp [postOutcome, he, hu, hk] at h
      | MEDIUM =>
          cases hk : containsEmergencyKeywords symptoms language with
          | true =>
              simp [postOutcome, he, hu, hk] at h
              simp [← h, he]
          | false => simp [postOutcome, he, hu, hk] at h
      | HIGH =>
          cases hk : containsEmergencyKeywords symptoms language with
          | true =>
              simp [postOutcome, he, hu, hk] at h
              simp [← h, he]
          | false => simp [postOutcome, he, hu, hk] at h

/-- Witness for C10: in the chest-pain scenario with both collaborators
unavailable the detector's own vote is false, and the created alert has
type OTHER and urgency EMERGENCY. -/
theorem alert_fields_witness :
    scenarioAlert.urgencyLevel = EMERGENCY ∧
    (scenarioAlert.emergencyType = "MEDICAL_EMERGENCY" ↔
      (detectEmergency EmergBehavior.apiFailure ClassState.unavailable
        LanguageTag.EN).isEmergency = true) ∧
    ((detectEmergency EmergBehavior.apiFailure ClassState.unavailable
        LanguageTag.EN).isEmergency = false →
      scenarioAlert.emergencyType = "OTHER") :=
  alert_fields "I have chest pain and difficulty breathing" LanguageTag.EN
    GenBehavior.apiFailure EmergBehavior.apiFailure ClassState.unavailable
    scenarioAlert (by decide)
